import Mathlib

/-!
Shallow embedding of the `rule_extraction` repository (three Python scripts:
`donut.py`, `duplicate.py`, `gemini_app.py`).

External library calls (the hosted LLM request, `json.loads`, `PyPDF2`,
`cv2` descriptor detection/matching, the Donut model pipeline) are modelled
as function parameters ("oracles") of `Except`-valued type when they can
raise; the repository's own control flow around them is translated
statement by statement from the source.
-/

/-- A JSON value, as produced by Python's `json.loads`.  Numbers are
modelled as integers, which suffices for every count field the scripts
inspect. -/
inductive Json where
  | null : Json
  | bool (b : Bool) : Json
  | num (n : Int) : Json
  | str (s : String) : Json
  | arr (xs : List Json) : Json
  | obj (kvs : List (String × Json)) : Json
deriving Repr

/-- Structural equality of JSON values (Python `==` on parsed JSON),
written as one recursion that peels arrays and objects an element at a
time. -/
def jsonBeq : Json → Json → Bool
  | .null, .null => true
  | .bool x, .bool y => x == y
  | .num x, .num y => x == y
  | .str x, .str y => x == y
  | .arr [], .arr [] => true
  | .arr (x :: xs), .arr (y :: ys) =>
    jsonBeq x y && jsonBeq (.arr xs) (.arr ys)
  | .obj [], .obj [] => true
  | .obj ((k, v) :: ps), .obj ((l, w) :: qs) =>
    k == l && jsonBeq v w && jsonBeq (.obj ps) (.obj qs)
  | _, _ => false

/-- First-match association-list lookup, the behaviour of a Python dict
lookup on the key sets that occur here. -/
def lookupAssoc : List (String × Json) → String → Option Json
  | [], _ => none
  | (k, v) :: rest, key => if k = key then some v else lookupAssoc rest key

/-- `j[k]` read as a total function: `some v` when `j` is an object holding
key `k`, otherwise `none`. -/
def jsonLookup (j : Json) (k : String) : Option Json :=
  match j with
  | .obj kvs => lookupAssoc kvs k
  | _ => none

/-- Python subscript `j[k]`: raises `KeyError` on a missing key and
`TypeError` on a non-object value. -/
def pyGet (j : Json) (k : String) : Except String Json :=
  match j with
  | .obj kvs =>
    match lookupAssoc kvs k with
    | some v => .ok v
    | none => .error ("KeyError: " ++ k)
  | _ => .error ("TypeError: value is not subscriptable with key " ++ k)

/-- Python `len(j)`: defined for strings, lists and dicts, `TypeError`
otherwise. -/
def pyLen (j : Json) : Except String Nat :=
  match j with
  | .str s => .ok s.length
  | .arr xs => .ok xs.length
  | .obj kvs => .ok kvs.length
  | _ => .error "TypeError: object has no len"

/-- Python iteration `for x in j`: lists yield elements, strings yield
one-character strings, dicts yield their keys, other values raise. -/
def pyIterate (j : Json) : Except String (List Json) :=
  match j with
  | .arr xs => .ok xs
  | .str s => .ok (s.data.map fun c => .str c.toString)
  | .obj kvs => .ok (kvs.map fun kv => .str kv.1)
  | _ => .error "TypeError: object is not iterable"

/-- Python truthiness of a JSON value (`if j:`). -/
def pyTruthy (j : Json) : Bool :=
  match j with
  | .null => false
  | .bool b => b
  | .num n => n != 0
  | .str s => s != ""
  | .arr xs => !xs.isEmpty
  | .obj kvs => !kvs.isEmpty

/-- Python `j == "lit"` for a JSON value against a string literal. -/
def jsonEqStr (j : Json) (lit : String) : Bool :=
  match j with
  | .str s => s == lit
  | _ => false

/-- Python `str.strip()` on a character list: whitespace removed from both
ends. -/
def pyStrip (s : List Char) : List Char :=
  ((s.dropWhile Char.isWhitespace).reverse.dropWhile Char.isWhitespace).reverse

/-- Python slice `s[a:-3]` for a nonnegative start `a`: elements from index
`a` up to (excluding) index `len s - 3`, empty when the bounds cross
(Python clamps the negative stop to 0 when `len s < 3`). -/
def pySliceToNeg3 (s : List Char) (a : Nat) : List Char :=
  (s.take (s.length - 3)).drop a

/-- `gemini_app.py` lines 96-99: markdown code-fence removal applied to the
stripped LLM response text before `json.loads`. -/
def stripFence (s : List Char) : List Char :=
  if ("```json".toList).isPrefixOf s then pySliceToNeg3 s 7
  else if ("```".toList).isPrefixOf s then pySliceToNeg3 s 3
  else s

/-- `gemini_app.py` lines 104-112: the result object built in the
`except` branch of `extract_signing_rules_smart`, with `str(e)` the message
of the caught exception. -/
def errorResult (e : String) : Json :=
  .obj
    [ ("status", .str "error")
    , ("message", .str ("Error processing document: " ++ e))
    , ("sections_found", .arr [])
    , ("total_rules", .num 0)
    , ("approved_count", .num 0)
    , ("approved_rules", .arr [])
    , ("all_rules", .arr []) ]

/-- `gemini_app.py` lines 84-112, `DocumentProcessor.extract_signing_rules_smart`.
The LLM request (lines 85-94, either provider, `.strip()` included) is the
oracle argument `llm`: `.ok raw` is the stripped response text, `.error e`
a raised exception with message `e`.  `loads` is Python's `json.loads`,
`.error e` a raised `JSONDecodeError`.  The `try` block covers both calls;
the `except` branch returns `errorResult`. -/
def extract_signing_rules_smart (llm : Except String (List Char))
    (loads : List Char → Except String Json) : Json :=
  match llm with
  | .error e => errorResult e
  | .ok raw =>
    match loads (stripFence (pyStrip raw)) with
    | .error e => errorResult e
    | .ok j => j

/-- `gemini_app.py` lines 20-29, `DocumentProcessor.extract_text_from_pdf`,
page-text accumulation loop: `text += page.extract_text() + "\n"`, where
`page.extract_text()` (the oracle `pageText`) may raise. -/
def collectPagesText (pageText : Nat → Except String String) :
    List Nat → String → Except String String
  | [], acc => .ok acc
  | p :: ps, acc =>
    match pageText p with
    | .error e => .error e
    | .ok t => collectPagesText pageText ps (acc ++ t ++ "\n")

/-- The body of the `try` block of `extract_text_from_pdf`: read the PDF
(oracle `readPdf`, returning the page list of the reader or raising), then
concatenate the extracted page texts. -/
def pdfTryBlock (readPdf : Except String (List Nat))
    (pageText : Nat → Except String String) : Except String String :=
  match readPdf with
  | .error e => .error e
  | .ok pages => collectPagesText pageText pages ""

/-- `gemini_app.py` lines 20-29, `DocumentProcessor.extract_text_from_pdf`.
Returns the extracted text together with the list of messages shown via
`st.error`: on any exception inside the `try` block the function shows
`"Error reading PDF: …"` and returns the empty string. -/
def extract_text_from_pdf (readPdf : Except String (List Nat))
    (pageText : Nat → Except String String) : String × List String :=
  match pdfTryBlock readPdf pageText with
  | .ok text => (text, [])
  | .error e => ("", ["Error reading PDF: " ++ e])

/-- `gemini_app.py` lines 163-165: per-section accesses of the renderer
(`section['section_name']`; `section.get('section_number', '')` cannot
raise a key error). -/
def displaySection (s : Json) : Except String Unit := do
  let _ ← pyGet s "section_name"
  pure ()

/-- `gemini_app.py` lines 169-174: per-rule accesses of the approved-rules
block, in source order (`rule.get('section', 'N/A')` cannot raise a key
error). -/
def displayApprovedRule (r : Json) : Except String Unit := do
  let _ ← pyGet r "rule_number"
  let _ ← pyGet r "rule_text"
  let _ ← pyGet r "checkbox_content"
  let _ ← pyGet r "rule_text"
  pure ()

/-- `gemini_app.py` lines 177-183: per-rule accesses of the all-rules
summary, in source order. -/
def displayAllRule (r : Json) : Except String Unit := do
  let _ ← pyGet r "is_approved"
  let _ ← pyGet r "is_approved"
  let _ ← pyGet r "rule_number"
  let _ ← pyGet r "rule_text"
  let _ ← pyGet r "checkbox_content"
  pure ()

/-- `gemini_app.py` lines 147-183, `display_signing_rules`, modelled at the
level of its dictionary accesses: `.ok ()` when every subscript the
renderer performs succeeds, `.error` carrying the Python exception message
otherwise.  Rendering side effects and the string formatting of found
values (which cannot raise a key error) are elided. -/
def display_signing_rules (results : Json) : Except String Unit := do
  let s ← pyGet results "status"
  if jsonEqStr s "error" then
    let _ ← pyGet results "message"
    pure ()
  else
    let _ ← pyGet results "total_rules"
    let _ ← pyGet results "approved_count"
    let sf ← pyGet results "sections_found"
    let _ ← pyLen sf
    if pyTruthy sf then
      (← pyIterate sf).forM displaySection
    let ar ← pyGet results "approved_rules"
    if pyTruthy ar then
      (← pyIterate ar).forM displayApprovedRule
    let al ← pyGet results "all_rules"
    (← pyIterate al).forM displayAllRule

/-- A click on one of the two pagination buttons of `display_pdf_pages`. -/
inductive PageEvent where
  | prevClick : PageEvent
  | nextClick : PageEvent

/-- `gemini_app.py` line 125: the Previous button is disabled exactly when
`st.session_state.current_page == 0`. -/
def prevDisabled (current_page : Int) : Bool :=
  current_page == 0

/-- `gemini_app.py` line 133: the Next button is disabled exactly when
`st.session_state.current_page >= total_pages - 1`. -/
def nextDisabled (total_pages current_page : Int) : Bool :=
  total_pages - 1 ≤ current_page

/-- `gemini_app.py` lines 125-135: effect of one button click on
`st.session_state.current_page`.  A disabled button cannot be clicked, so
its event leaves the state unchanged; an enabled Previous click runs
`current_page -= 1` and an enabled Next click runs `current_page += 1`
(Python integers, hence `Int`). -/
def pageStep (total_pages : Int) (current_page : Int) : PageEvent → Int
  | .prevClick =>
    if prevDisabled current_page then current_page else current_page - 1
  | .nextClick =>
    if nextDisabled total_pages current_page then current_page
    else current_page + 1

/-- `gemini_app.py` lines 119-135: the pagination state after a sequence of
button clicks, starting from the initial `current_page = 0` set on first
render. -/
def runPagination (total_pages : Int) (evs : List PageEvent) : Int :=
  evs.foldl (pageStep total_pages) 0

/-- `duplicate.py` lines 3-17, `orb_similarity`.  `detectAndCompute img`
models the descriptor component of `orb.detectAndCompute(img, None)`
(`none` = Python `None`); `bfMatchCount` models
`len(bf.match(des1, des2))`.  When either descriptor set is `None` the
function returns 0 before matching. -/
def orb_similarity {Image Desc : Type} (detectAndCompute : Image → Option Desc)
    (bfMatchCount : Desc → Desc → Nat) (img1 img2 : Image) : Nat :=
  match detectAndCompute img1, detectAndCompute img2 with
  | some des1, some des2 => bfMatchCount des1 des2
  | _, _ => 0

/-- `duplicate.py` lines 19-21, `are_images_similar_orb`:
`matches > match_threshold`.  The threshold (Python default 30) is an
arbitrary Python number, modelled as `Int`. -/
def are_images_similar_orb {Image Desc : Type}
    (detectAndCompute : Image → Option Desc)
    (bfMatchCount : Desc → Desc → Nat) (img1 img2 : Image)
    (match_threshold : Int) : Bool :=
  (orb_similarity detectAndCompute bfMatchCount img1 img2 : Int) >
    match_threshold

/-- `donut.py` line 20: the DocVQA prompt string built for a question. -/
def mkPrompt (question : String) : String :=
  "<s_docvqa><s_question>" ++ question ++ "</s_question><s_answer>"

/-- `donut.py` lines 19-33, `ask_question`.  The four external model calls
are oracles that may raise: `processorRun` is `processor(image, …)`,
`tokenizeIds` is `processor.tokenizer(prompt, …)`, `generate` is
`model.generate(…)`, and `batchDecodeFirst` is
`processor.batch_decode(outputs, …)[0]`.  The function body contains no
`try`/`except`, so every oracle failure propagates. -/
def ask_question {Image Inputs Ids Outputs : Type}
    (processorRun : Image → Except String Inputs)
    (tokenizeIds : String → Except String Ids)
    (generate : Inputs → Ids → Except String Outputs)
    (batchDecodeFirst : Outputs → Except String String)
    (image : Image) (question : String) : Except String String := do
  let prompt := mkPrompt question
  let inputs ← processorRun image
  let ids ← tokenizeIds prompt
  let outs ← generate inputs ids
  let decoded ← batchDecodeFirst outs
  pure ((decoded.replace prompt "").trim)

/-- `donut.py` lines 39-43: the three fixed questions, in source order. -/
def questions : List String :=
  [ "What is the print full name?"
  , "What is the print surname?"
  , "What is the official position?" ]

/-- `donut.py` lines 47-49: the inner question loop of
`extract_signatory_info` over one page image, via a total answer function
`ask`.  Returns the console lines printed, plus the exception that ended
the loop early when `ask` raised. -/
def runQuestionLoop {Image : Type} (ask : Image → String → Except String String)
    (image : Image) : List String → List String × Option String
  | [] => ([], none)
  | q :: qs =>
    match ask image q with
    | .error e => ([], some e)
    | .ok a =>
      let (ls, r) := runQuestionLoop ask image qs
      ((q ++ " → " ++ a) :: ls, r)

/-- `donut.py` lines 45-49: the page loop of `extract_signatory_info` over
`enumerate(images)`.  Each page first prints its header line, then its
question/answer lines; a raised exception stops the whole loop. -/
def runPageLoop {Image : Type} (ask : Image → String → Except String String) :
    List (Nat × Image) → List String × Option String
  | [] => ([], none)
  | (page_num, image) :: rest =>
    let header := "\n📄 Page " ++ toString (page_num + 1)
    match runQuestionLoop ask image questions with
    | (ls, some e) => (header :: ls, some e)
    | (ls, none) =>
      let (ls2, r2) := runPageLoop ask rest
      (header :: (ls ++ ls2), r2)

/-- `donut.py` lines 36-49, `extract_signatory_info`: convert the PDF at
`pdf_path` to page images (`pdf_to_images`, line 37, an external
rasterizer call), then run the page loop.  Returns the console lines
printed and the exception, if any, that aborted the run. -/
def extract_signatory_info {Image : Type}
    (pdf_to_images : String → List Image)
    (ask : Image → String → Except String String)
    (pdf_path : String) : List String × Option String :=
  runPageLoop ask (pdf_to_images pdf_path).enum

/-- Membership of a JSON value in a JSON array, via structural equality. -/
def jsonMem (x : Json) (ys : List Json) : Bool :=
  ys.any (jsonBeq x)

/-- The count/membership invariant stated by the spec for extraction
results: `approved_count` equals the length of `approved_rules`, and every
entry of `approved_rules` occurs in `all_rules` and carries
`is_approved = true`. -/
def countsOk (j : Json) : Bool :=
  match jsonLookup j "approved_count", jsonLookup j "approved_rules",
      jsonLookup j "all_rules" with
  | some (.num n), some (.arr ar), some (.arr al) =>
    (n == (ar.length : Int)) && ar.all fun r =>
      jsonMem r al &&
        (match jsonLookup r "is_approved" with
         | some (.bool true) => true
         | _ => false)
  | _, _, _ => false

/-- `json.loads` on text that is not valid JSON: it raises
`JSONDecodeError` for every input it is given here. -/
def loadsFail : List Char → Except String Json :=
  fun _ => .error "Expecting value: line 1 column 1 (char 0)"

/-- A syntactically valid JSON object text whose `approved_count` (1) does
not match the length of its `approved_rules` list (0). -/
def mismatchText : List Char :=
  "\x7b\"approved_count\": 1, \"approved_rules\": [], \"all_rules\": []\x7d".toList

/-- The value `json.loads` returns for `mismatchText`. -/
def mismatchJson : Json :=
  .obj
    [ ("approved_count", .num 1)
    , ("approved_rules", .arr [])
    , ("all_rules", .arr []) ]

/-- `json.loads` modelled on the single input `mismatchText` (on which it
returns `mismatchJson`); it raises on any other text. -/
def loadsMismatch : List Char → Except String Json :=
  fun s =>
    if s = mismatchText then .ok mismatchJson
    else .error "Expecting value: line 1 column 1 (char 0)"

/-- The two-character text of the empty JSON object. -/
def emptyObjText : List Char := "\x7b\x7d".toList

/-- `json.loads` modelled on the single input `emptyObjText` (on which it
returns the empty object); it raises on any other text. -/
def loadsEmptyObj : List Char → Except String Json :=
  fun s =>
    if s = emptyObjText then .ok (.obj [])
    else .error "Expecting value: line 1 column 1 (char 0)"

/-- `orb.detectAndCompute` returning no descriptors on every image. -/
def detectNone : Nat → Option Nat := fun _ => none

/-- `orb.detectAndCompute` returning a descriptor set on every image. -/
def detectSome : Nat → Option Nat := fun _ => some 0

/-- A matcher producing no matches. -/
def bfZero : Nat → Nat → Nat := fun _ _ => 0

/-- A matcher producing five matches. -/
def bfFive : Nat → Nat → Nat := fun _ _ => 5

/-- `processor(image, …)` failing with a model-inference exception. -/
def procFail : Unit → Except String Unit :=
  fun _ => .error "RuntimeError: CUDA out of memory"

/-- `processor(image, …)` succeeding. -/
def procOk : Unit → Except String Unit := fun _ => .ok ()

/-- `processor.tokenizer(prompt, …)` succeeding. -/
def tokOk : String → Except String Unit := fun _ => .ok ()

/-- `model.generate(…)` succeeding. -/
def genOk : Unit → Unit → Except String Unit := fun _ _ => .ok ()

/-- `processor.batch_decode(outputs, …)[0]` succeeding. -/
def decodeOk : Unit → Except String String := fun _ => .ok "John Smith"

/-- `page.extract_text()` succeeding on every page. -/
def pageTextOk : Nat → Except String String := fun _ => .ok "page text"

/-- `page.extract_text()` raising on every page. -/
def pageTextFail : Nat → Except String String :=
  fun _ => .error "file has not been decrypted"

/-- A rasterizer producing two page images for any path. -/
def p2iTwo : String → List Nat := fun _ => [100, 200]

/-- A total VQA answer oracle echoing the question. -/
def askConst : Nat → String → Except String String :=
  fun _ q => .ok ("answer to " ++ q)

/-- C1: every failure inside `extract_signing_rules_smart` — a raised LLM
request exception, or `json.loads` raising on malformed/non-JSON output —
is caught, and the function returns the error-shaped object: status
`"error"`, the human-readable message `"Error processing document: …"`,
`sections_found = []`, `total_rules = 0`, `approved_count = 0`,
`approved_rules = []` and `all_rules = []`. -/
theorem extract_smart_failure_returns_error_shape
    (loads : List Char → Except String Json) (raw : List Char)
    (eLlm eParse : String)
    (hparse : loads (stripFence (pyStrip raw)) = Except.error eParse) :
    extract_signing_rules_smart (Except.error eLlm) loads = errorResult eLlm ∧
    extract_signing_rules_smart (Except.ok raw) loads = errorResult eParse ∧
    ∀ e,
      jsonLookup (errorResult e) "status" = some (Json.str "error") ∧
      jsonLookup (errorResult e) "message" =
        some (Json.str ("Error processing document: " ++ e)) ∧
      jsonLookup (errorResult e) "sections_found" = some (Json.arr []) ∧
      jsonLookup (errorResult e) "total_rules" = some (Json.num 0) ∧
      jsonLookup (errorResult e) "approved_count" = some (Json.num 0) ∧
      jsonLookup (errorResult e) "approved_rules" = some (Json.arr []) ∧
      jsonLookup (errorResult e) "all_rules" = some (Json.arr []) := by
  refine ⟨rfl, ?_, ?_⟩
  · simp only [extract_signing_rules_smart, hparse]
  · intro e
    exact ⟨rfl, rfl, rfl, rfl, rfl, rfl, rfl⟩

/-- C1 witness: the theorem applied to a concrete raised LLM exception and
a concrete non-JSON response text. -/
theorem extract_smart_failure_returns_error_shape_witness :
    extract_signing_rules_smart (Except.error "Connection error.") loadsFail =
      errorResult "Connection error." ∧
    extract_signing_rules_smart (Except.ok "I cannot help with that.".toList)
        loadsFail =
      errorResult "Expecting value: line 1 column 1 (char 0)" ∧
    jsonLookup (errorResult "Connection error.") "status" =
      some (Json.str "error") :=
  have h := extract_smart_failure_returns_error_shape loadsFail
    "I cannot help with that.".toList "Connection error."
    "Expecting value: line 1 column 1 (char 0)" rfl
  ⟨h.1, h.2.1, (h.2.2 "Connection error.").1⟩

/-- C2 counterexample: a syntactically valid JSON object whose
`approved_count` is 1 while `approved_rules` is empty is parsed
successfully and returned verbatim, so the claimed invariant fails on a
returned object. -/
theorem extract_smart_invariant_counterexample :
    extract_signing_rules_smart (Except.ok mismatchText) loadsMismatch =
      mismatchJson ∧
    jsonLookup mismatchJson "approved_count" = some (Json.num 1) ∧
    jsonLookup mismatchJson "approved_rules" = some (Json.arr []) ∧
    countsOk mismatchJson = false :=
  ⟨rfl, rfl, rfl, rfl⟩

/-- C2 amended: `extract_signing_rules_smart` returns the successfully
parsed JSON verbatim and does not itself enforce the count/membership
invariant; the invariant holds for the returned object exactly when the
parsed LLM response satisfies it, and the error-path result satisfies it
trivially. -/
theorem extract_smart_returns_parsed_json_verbatim
    (loads : List Char → Except String Json) (raw : List Char) (j : Json)
    (hparse : loads (stripFence (pyStrip raw)) = Except.ok j) :
    extract_signing_rules_smart (Except.ok raw) loads = j ∧
    countsOk (extract_signing_rules_smart (Except.ok raw) loads) =
      countsOk j ∧
    ∀ e, countsOk (errorResult e) = true := by
  have hret : extract_signing_rules_smart (Except.ok raw) loads = j := by
    simp only [extract_signing_rules_smart, hparse]
  refine ⟨hret, by rw [hret], ?_⟩
  intro e
  rfl

/-- C2 amended, witness: the theorem applied to the concrete mismatching
response text. -/
theorem extract_smart_returns_parsed_json_verbatim_witness :
    extract_signing_rules_smart (Except.ok mismatchText) loadsMismatch =
      mismatchJson ∧
    countsOk (extract_signing_rules_smart (Except.ok mismatchText)
        loadsMismatch) =
      countsOk mismatchJson ∧
    countsOk (errorResult "Connection error.") = true :=
  have h := extract_smart_returns_parsed_json_verbatim loadsMismatch
    mismatchText mismatchJson rfl
  ⟨h.1, h.2.1, h.2.2 "Connection error."⟩

/-- C3 counterexample: with no descriptors detectable in either image the
match count is 0, yet `0 > match_threshold` holds for the negative
threshold `-1`, so `are_images_similar_orb` returns `true` — the claim's
"false for every value of the match_threshold parameter" fails. -/
theorem are_images_similar_orb_negative_threshold_counterexample :
    orb_similarity detectNone bfZero 0 1 = 0 ∧
    are_images_similar_orb detectNone bfZero 0 1 (-1) = true :=
  ⟨rfl, rfl⟩

/-- C3 amended: when either image yields no descriptors, the match count
is 0 and `are_images_similar_orb` returns `false` for every nonnegative
threshold (for a negative threshold it returns `true`, since the code
compares with strict `>`). -/
theorem orb_similarity_no_descriptors {Image Desc : Type}
    (detectAndCompute : Image → Option Desc)
    (bfMatchCount : Desc → Desc → Nat) (img1 img2 : Image)
    (match_threshold : Int)
    (hnone : detectAndCompute img1 = none ∨ detectAndCompute img2 = none)
    (ht : 0 ≤ match_threshold) :
    orb_similarity detectAndCompute bfMatchCount img1 img2 = 0 ∧
    are_images_similar_orb detectAndCompute bfMatchCount img1 img2
      match_threshold = false := by
  have h0 : orb_similarity detectAndCompute bfMatchCount img1 img2 = 0 := by
    unfold orb_similarity
    cases h1 : detectAndCompute img1 with
    | none => rfl
    | some d1 =>
      cases h2 : detectAndCompute img2 with
      | none => rfl
      | some d2 =>
        rcases hnone with h | h
        · rw [h1] at h; cases h
        · rw [h2] at h; cases h
  refine ⟨h0, ?_⟩
  simp only [are_images_similar_orb, h0]
  simpa using ht

/-- C3 amended, witness: the theorem applied to a concrete
no-descriptor detector and the source's default threshold 30. -/
theorem orb_similarity_no_descriptors_witness :
    orb_similarity detectNone bfZero 0 1 = 0 ∧
    are_images_similar_orb detectNone bfZero 0 1 30 = false :=
  orb_similarity_no_descriptors detectNone bfZero 0 1 30 (Or.inl rfl)
    (by decide)

/-- C4 counterexample: `donut.py` contains no `try`/`except`, so a model
inference failure inside `ask_question` propagates out of the function as
an uncaught exception instead of being converted into a message. -/
theorem ask_question_propagates_counterexample :
    ask_question procFail tokOk genOk decodeOk ()
        "What is the print full name?" =
      Except.error "RuntimeError: CUDA out of memory" :=
  rfl

/-- C4 amended: in `gemini_app.py` the external calls (LLM request, JSON
parsing, PDF reading and page text extraction) are wrapped in broad
exception guards that convert any failure into a human-readable message;
`donut.py` contains no exception guard, so an external-call failure there
propagates uncaught out of `ask_question`. -/
theorem exception_guard_coverage :
    (∀ (loads : List Char → Except String Json) (e : String),
      extract_signing_rules_smart (Except.error e) loads = errorResult e) ∧
    (∀ (loads : List Char → Except String Json) (raw : List Char)
        (e : String),
      loads (stripFence (pyStrip raw)) = Except.error e →
      extract_signing_rules_smart (Except.ok raw) loads = errorResult e) ∧
    (∀ (readPdf : Except String (List Nat))
        (pageText : Nat → Except String String) (e : String),
      pdfTryBlock readPdf pageText = Except.error e →
      extract_text_from_pdf readPdf pageText =
        ("", ["Error reading PDF: " ++ e])) ∧
    (∀ (Image Inputs Ids Outputs : Type)
        (processorRun : Image → Except String Inputs)
        (tokenizeIds : String → Except String Ids)
        (generate : Inputs → Ids → Except String Outputs)
        (batchDecodeFirst : Outputs → Except String String)
        (image : Image) (question : String) (e : String),
      processorRun image = Except.error e →
      ask_question processorRun tokenizeIds generate batchDecodeFirst
        image question = Except.error e) := by
  refine ⟨fun _ _ => rfl, ?_, ?_, ?_⟩
  · intro loads raw e h
    simp only [extract_signing_rules_smart, h]
  · intro readPdf pageText e h
    simp only [extract_text_from_pdf, h]
  · intro Image Inputs Ids Outputs processorRun tokenizeIds generate
      batchDecodeFirst image question e h
    simp only [ask_question, h]
    rfl

/-- C4 amended, witness: the guards and the propagation exercised at
concrete failing calls. -/
theorem exception_guard_coverage_witness :
    extract_signing_rules_smart (Except.error "Connection timed out.")
        loadsFail =
      errorResult "Connection timed out." ∧
    extract_signing_rules_smart (Except.ok "no rules here".toList)
        loadsFail =
      errorResult "Expecting value: line 1 column 1 (char 0)" ∧
    extract_text_from_pdf (Except.error "EOF marker not found") pageTextOk =
      ("", ["Error reading PDF: EOF marker not found"]) ∧
    ask_question procFail tokOk genOk decodeOk ()
        "What is the official position?" =
      Except.error "RuntimeError: CUDA out of memory" :=
  have h := exception_guard_coverage
  ⟨h.1 loadsFail "Connection timed out.",
   h.2.1 loadsFail "no rules here".toList
     "Expecting value: line 1 column 1 (char 0)" rfl,
   h.2.2.1 (Except.error "EOF marker not found") pageTextOk
     "EOF marker not found" rfl,
   h.2.2.2 Unit Unit Unit Unit procFail tokOk genOk decodeOk ()
     "What is the official position?" "RuntimeError: CUDA out of memory"
     rfl⟩

/-- C5 counterexample: the LLM answering with the valid JSON text `"{}"`
makes `extract_signing_rules_smart` return the empty object, which lacks
the `status` field, and the renderer's very first subscript raises a
missing-key error on it. -/
theorem extract_smart_result_missing_fields_counterexample :
    extract_signing_rules_smart (Except.ok emptyObjText) loadsEmptyObj =
      Json.obj [] ∧
    jsonLookup (Json.obj []) "status" = none ∧
    display_signing_rules (Json.obj []) = Except.error "KeyError: status" :=
  ⟨rfl, rfl, rfl⟩

/-- C5 amended: every result object produced by the error path of
`extract_signing_rules_smart` contains the fields `status`, `message`,
`sections_found`, `total_rules`, `approved_count`, `approved_rules` and
`all_rules`, and `display_signing_rules` consumes it without a missing-key
error; a successfully parsed LLM response is returned verbatim and carries
no such field guarantee. -/
theorem errorResult_renderer_contract (e : String) :
    (jsonLookup (errorResult e) "status").isSome = true ∧
    (jsonLookup (errorResult e) "message").isSome = true ∧
    (jsonLookup (errorResult e) "sections_found").isSome = true ∧
    (jsonLookup (errorResult e) "total_rules").isSome = true ∧
    (jsonLookup (errorResult e) "approved_count").isSome = true ∧
    (jsonLookup (errorResult e) "approved_rules").isSome = true ∧
    (jsonLookup (errorResult e) "all_rules").isSome = true ∧
    display_signing_rules (errorResult e) = Except.ok () :=
  ⟨rfl, rfl, rfl, rfl, rfl, rfl, rfl, rfl⟩

/-- C6: whenever `PyPDF2.PdfReader` or a page's `extract_text()` raises,
`extract_text_from_pdf` catches the exception, shows the human-readable
message `"Error reading PDF: …"` via `st.error`, and returns the empty
string instead of raising. -/
theorem extract_text_from_pdf_catches (readPdf : Except String (List Nat))
    (pageText : Nat → Except String String) (e : String)
    (hfail : pdfTryBlock readPdf pageText = Except.error e) :
    extract_text_from_pdf readPdf pageText =
      ("", ["Error reading PDF: " ++ e]) := by
  simp only [extract_text_from_pdf, hfail]

/-- C6 witness: the theorem applied to a concrete failing PDF read and to
a concrete failing page-text extraction. -/
theorem extract_text_from_pdf_catches_witness :
    extract_text_from_pdf (Except.error "EOF marker not found") pageTextOk =
      ("", ["Error reading PDF: EOF marker not found"]) ∧
    extract_text_from_pdf (Except.ok [0, 1]) pageTextFail =
      ("", ["Error reading PDF: file has not been decrypted"]) :=
  ⟨extract_text_from_pdf_catches (Except.error "EOF marker not found")
     pageTextOk "EOF marker not found" rfl,
   extract_text_from_pdf_catches (Except.ok [0, 1]) pageTextFail
     "file has not been decrypted" rfl⟩

/-- When every model call succeeds, the question loop prints one
question/answer line per question, in question order. -/
theorem runQuestionLoop_all_ok {Image : Type}
    (ask : Image → String → Except String String)
    (answer : Image → String → String) (image : Image)
    (hok : ∀ i q, ask i q = Except.ok (answer i q)) :
    ∀ qs : List String,
      runQuestionLoop ask image qs =
        (qs.map fun q => q ++ " → " ++ answer image q, none)
  | [] => rfl
  | q :: qs => by
    simp only [runQuestionLoop, hok image q,
      runQuestionLoop_all_ok ask answer image hok qs, List.map_cons]

/-- When every model call succeeds, the page loop prints, per enumerated
page in order, the page header followed by the three question/answer
lines. -/
theorem runPageLoop_all_ok {Image : Type}
    (ask : Image → String → Except String String)
    (answer : Image → String → String)
    (hok : ∀ i q, ask i q = Except.ok (answer i q)) :
    ∀ ps : List (Nat × Image),
      runPageLoop ask ps =
        (ps.flatMap fun pi =>
          ("\n📄 Page " ++ toString (pi.1 + 1)) ::
            questions.map fun q => q ++ " → " ++ answer pi.2 q, none)
  | [] => rfl
  | (page_num, image) :: rest => by
    simp only [runPageLoop, runQuestionLoop_all_ok ask answer image hok,
      runPageLoop_all_ok ask answer hok rest, List.flatMap_cons,
      List.cons_append]

/-- C7: `extract_signatory_info` first converts the PDF at the given path
to a list of page images, then, for each page in order and for each of the
three fixed questions in order, obtains the model's answer and prints the
question/answer pair, each page preceded by its header line. -/
theorem extract_signatory_info_pipeline {Image : Type}
    (pdf_to_images : String → List Image)
    (ask : Image → String → Except String String)
    (answer : Image → String → String) (pdf_path : String)
    (hok : ∀ i q, ask i q = Except.ok (answer i q)) :
    extract_signatory_info pdf_to_images ask pdf_path =
      ((pdf_to_images pdf_path).enum.flatMap fun pi =>
        ("\n📄 Page " ++ toString (pi.1 + 1)) ::
          questions.map fun q => q ++ " → " ++ answer pi.2 q, none) :=
  runPageLoop_all_ok ask answer hok (pdf_to_images pdf_path).enum

/-- C7 witness: a two-page document with a total answer oracle produces
exactly the page headers and the nine question/answer lines, in order. -/
theorem extract_signatory_info_pipeline_witness :
    extract_signatory_info p2iTwo askConst "/content/regex_practise.docx" =
      ( [ "\n📄 Page 1"
        , "What is the print full name? → answer to What is the print full name?"
        , "What is the print surname? → answer to What is the print surname?"
        , "What is the official position? → answer to What is the official position?"
        , "\n📄 Page 2"
        , "What is the print full name? → answer to What is the print full name?"
        , "What is the print surname? → answer to What is the print surname?"
        , "What is the official position? → answer to What is the official position?" ]
      , none ) :=
  (extract_signatory_info_pipeline p2iTwo askConst
      (fun _ q => "answer to " ++ q) "/content/regex_practise.docx"
      (fun _ _ => rfl)).trans rfl

/-- One button click keeps `current_page` inside `[0, total_pages - 1]`. -/
theorem pageStep_bounds (total_pages current_page : Int) (ev : PageEvent)
    (h0 : 0 ≤ current_page) (h1 : current_page ≤ total_pages - 1) :
    0 ≤ pageStep total_pages current_page ev ∧
    pageStep total_pages current_page ev ≤ total_pages - 1 := by
  cases ev with
  | prevClick =>
    simp only [pageStep, prevDisabled]
    split
    · exact ⟨h0, h1⟩
    · rename_i h
      simp only [beq_iff_eq] at h
      constructor <;> omega
  | nextClick =>
    simp only [pageStep, nextDisabled]
    split
    · exact ⟨h0, h1⟩
    · rename_i h
      simp only [decide_eq_true_eq] at h
      constructor <;> omega

/-- Folding any click sequence from a state inside `[0, total_pages - 1]`
stays inside `[0, total_pages - 1]`. -/
theorem foldl_pageStep_bounds (total_pages : Int) :
    ∀ (evs : List PageEvent) (current_page : Int),
      0 ≤ current_page → current_page ≤ total_pages - 1 →
      0 ≤ evs.foldl (pageStep total_pages) current_page ∧
      evs.foldl (pageStep total_pages) current_page ≤ total_pages - 1
  | [], _, h0, h1 => ⟨h0, h1⟩
  | ev :: evs, current_page, h0, h1 => by
    have hstep := pageStep_bounds total_pages current_page ev h0 h1
    simpa only [List.foldl_cons] using
      foldl_pageStep_bounds total_pages evs
        (pageStep total_pages current_page ev) hstep.1 hstep.2

/-- C8: for a PDF with `total_pages ≥ 1` the pagination state of
`display_pdf_pages` starts at 0, the Previous button is disabled exactly
at page 0, the Next button is disabled from page `total_pages - 1` on, and
consequently `current_page` stays within `[0, total_pages - 1]` after any
sequence of button clicks. -/
theorem display_pdf_pages_bounds (total_pages : Int)
    (evs : List PageEvent) (htotal : 1 ≤ total_pages) :
    0 ≤ runPagination total_pages evs ∧
    runPagination total_pages evs ≤ total_pages - 1 ∧
    prevDisabled 0 = true ∧
    (∀ current_page, total_pages - 1 ≤ current_page →
      nextDisabled total_pages current_page = true) := by
  have h := foldl_pageStep_bounds total_pages evs 0 le_rfl (by omega)
  refine ⟨h.1, h.2, rfl, ?_⟩
  intro current_page hcp
  simp only [nextDisabled, decide_eq_true_eq]
  exact hcp

/-- C8 witness: a three-page document walked past both ends. -/
theorem display_pdf_pages_bounds_witness :
    0 ≤ runPagination 3
        [PageEvent.prevClick, PageEvent.nextClick, PageEvent.nextClick,
         PageEvent.nextClick, PageEvent.nextClick, PageEvent.prevClick] ∧
    runPagination 3
        [PageEvent.prevClick, PageEvent.nextClick, PageEvent.nextClick,
         PageEvent.nextClick, PageEvent.nextClick, PageEvent.prevClick] ≤
      3 - 1 :=
  have h := display_pdf_pages_bounds 3
    [PageEvent.prevClick, PageEvent.nextClick, PageEvent.nextClick,
     PageEvent.nextClick, PageEvent.nextClick, PageEvent.prevClick]
    (by decide)
  ⟨h.1, h.2.1⟩

/-- C9: before `json.loads`, the stripped response text loses a leading
markdown fence: a text starting with "```json" is cut to the characters
from index 7 up to (excluding) the third-from-last, a text starting with
"```" to the characters from index 3 up to (excluding) the third-from-last
— the last three characters are removed unconditionally, with no check
that the text ends in a closing fence — and any other text is passed on
unchanged. -/
theorem stripFence_spec (s : List Char) :
    (("```json".toList).isPrefixOf s →
      stripFence s = (s.drop 7).take (s.length - 10)) ∧
    (¬ ("```json".toList).isPrefixOf s → ("```".toList).isPrefixOf s →
      stripFence s = (s.drop 3).take (s.length - 6)) ∧
    (¬ ("```json".toList).isPrefixOf s → ¬ ("```".toList).isPrefixOf s →
      stripFence s = s) := by
  refine ⟨?_, ?_, ?_⟩
  · intro h
    simp only [stripFence, h, if_true, pySliceToNeg3]
    rw [List.drop_take]
    congr 1
  · intro hnj h3
    rw [Bool.not_eq_true] at hnj
    simp only [stripFence, hnj, h3, Bool.false_eq_true, if_false, if_true,
      pySliceToNeg3]
    rw [List.drop_take]
    congr 1
  · intro hnj hn3
    rw [Bool.not_eq_true] at hnj hn3
    simp only [stripFence, hnj, hn3, Bool.false_eq_true, if_false]

/-- C9 witness: the theorem applied to a fenced "```json" text, a fenced
"```" text, an unfenced text, and a "```json" text with no closing fence
(whose last three characters are removed all the same). -/
theorem stripFence_spec_witness :
    stripFence ("```json\x7b\x7d```".toList) = "\x7b\x7d".toList ∧
    stripFence ("```\x7b\x7d```".toList) = "\x7b\x7d".toList ∧
    stripFence ("\x7b\x7d".toList) = "\x7b\x7d".toList ∧
    stripFence ("```json1234567".toList) = "1234".toList :=
  ⟨((stripFence_spec _).1 (by decide)).trans rfl,
   ((stripFence_spec _).2.1 (by decide) (by decide)).trans rfl,
   ((stripFence_spec _).2.2 (by decide) (by decide)).trans rfl,
   ((stripFence_spec _).1 (by decide)).trans rfl⟩

/-- C10: `are_images_similar_orb` returns `true` exactly when the match
count returned by `orb_similarity` is strictly greater than the
`match_threshold` argument; in particular a match count equal to the
threshold reports the images as not similar. -/
theorem are_images_similar_orb_iff_gt {Image Desc : Type}
    (detectAndCompute : Image → Option Desc)
    (bfMatchCount : Desc → Desc → Nat) (img1 img2 : Image)
    (match_threshold : Int) :
    (are_images_similar_orb detectAndCompute bfMatchCount img1 img2
        match_threshold = true ↔
      (orb_similarity detectAndCompute bfMatchCount img1 img2 : Int) >
        match_threshold) ∧
    ((orb_similarity detectAndCompute bfMatchCount img1 img2 : Int) =
        match_threshold →
      are_images_similar_orb detectAndCompute bfMatchCount img1 img2
        match_threshold = false) := by
  constructor
  · simp [are_images_similar_orb]
  · intro h
    simp [are_images_similar_orb, h]

/-- C10 witness: a matcher producing exactly five matches against the
threshold five reports not similar. -/
theorem are_images_similar_orb_iff_gt_witness :
    (are_images_similar_orb detectSome bfFive 0 1 5 = true ↔
      (orb_similarity detectSome bfFive 0 1 : Int) > 5) ∧
    are_images_similar_orb detectSome bfFive 0 1 5 = false :=
  ⟨(are_images_similar_orb_iff_gt detectSome bfFive 0 1 5).1,
   (are_images_similar_orb_iff_gt detectSome bfFive 0 1 5).2 rfl⟩
